import Mathlib

/-!
# Verification of the resume-screening core (parsing orchestration + dual scoring)

Shallow embedding of the repository's matching-and-fallback-parsing core:

* `app/services/enhanced_scoring.py` — `EnhancedResumeScorer` (heuristic axes,
  AI-score shaping, the AI→heuristic fallback in `calculate_match_score`);
* `app/services/gemini_service.py` — `GeminiService.parse_resume` (two LLM
  attempts, then `_enhanced_fallback_parse`), the content hash stamped on every
  produced record;
* `app/routers/upload.py` — the hash-then-maybe-extract dedup ordering of
  `upload_resume`.

Modelling conventions:

* Python floats are modelled as `ℚ`; `round(x, n)` is modelled as rounding to
  `n` decimal digits over `ℚ`.
* Python strings are modelled as Lean `String`, with ASCII models of
  `str.lower` / `str.strip` / `str.split` / `str.title` / `str.isupper` and of
  substring containment (`in`), written as executable functions over `List Char`.
* External effects (the Gemini generation calls) are modelled as parameters:
  an `Option` value is `none` exactly when the Python call would raise (network
  error, non-JSON response, schema violation) or return a falsy result, and
  `some` carries the successfully parsed payload.
* The pydantic validation of `Resume(**data)` in the fallback parser is
  embedded: its only fallible field is the `EmailStr` contact email, and the
  unprotected third attempt of `parse_resume` propagates its
  `ValidationError`, modelled by `Except` in `enhanced_fallback_parse` and
  `parse_resume_checked`.
* `datetime.now().year` / `datetime.utcnow()` are passed in as explicit
  parameters (`currentYear`, `now`).
* `hashlib.sha256(text.encode()).hexdigest()` is embedded as a full executable
  SHA-256 (FIPS 180-4) over `Nat` words reduced mod `2^32`.
-/

/-! ## ASCII models of the Python string operations used by the core -/

/-- Characters treated as whitespace by `str.strip()` / `str.split()`
(ASCII fragment of Python's definition). -/
def isPySpace (c : Char) : Bool :=
  c == ' ' || c == '\t' || c == '\n' || c == '\r' || c == '\x0b' || c == '\x0c'

/-- One character of `str.lower()` (ASCII). -/
def pyLowerChar (c : Char) : Char :=
  if 'A' ≤ c ∧ c ≤ 'Z' then Char.ofNat (c.toNat + 32) else c

/-- One character of `str.upper()` (ASCII). -/
def pyUpperChar (c : Char) : Char :=
  if 'a' ≤ c ∧ c ≤ 'z' then Char.ofNat (c.toNat - 32) else c

/-- `str.lower()` (ASCII model). -/
def pyLower (s : String) : String := String.mk (s.data.map pyLowerChar)

/-- Drop leading `isPySpace` characters. -/
def dropSpaces : List Char → List Char
  | [] => []
  | c :: cs => if isPySpace c then dropSpaces cs else c :: cs

/-- `str.strip()` (ASCII model): drop leading and trailing whitespace. -/
def pyStrip (s : String) : String :=
  String.mk (((dropSpaces s.data).reverse |> dropSpaces).reverse)

/-- Does `needle` occur at the head of `hay`?  (Helper for substring search.) -/
def charsLeadMatch : List Char → List Char → Bool
  | [], _ => true
  | _ :: _, [] => false
  | a :: as, b :: bs => a == b && charsLeadMatch as bs

/-- Does `needle` occur anywhere in `hay`?  (Helper for substring search.) -/
def charsContain (needle : List Char) : List Char → Bool
  | [] => charsLeadMatch needle []
  | b :: bs => charsLeadMatch needle (b :: bs) || charsContain needle bs

/-- Python's `needle in hay` on strings: substring containment. -/
def strContains (hay needle : String) : Bool :=
  charsContain needle.data hay.data

/-- Split a character list into maximal whitespace-free words
(model of argument-less `str.split()`, which drops empty fields). -/
def wordsOf : List Char → List Char → List String
  | [], cur => if cur.isEmpty then [] else [String.mk cur.reverse]
  | c :: cs, cur =>
    if isPySpace c then
      if cur.isEmpty then wordsOf cs [] else String.mk cur.reverse :: wordsOf cs []
    else wordsOf cs (c :: cur)

/-- `str.split()` with no argument (model). -/
def pyWords (s : String) : List String := wordsOf s.data []

/-- Split a character list at every `'\n'` (model of `str.split('\n')`). -/
def linesOf : List Char → List Char → List String
  | [], cur => [String.mk cur.reverse]
  | c :: cs, cur =>
    if c == '\n' then String.mk cur.reverse :: linesOf cs []
    else linesOf cs (c :: cur)

/-- Split a string at every `'-'` (model of `str.split('-')`). -/
def dashSplit : List Char → List Char → List String
  | [], cur => [String.mk cur.reverse]
  | c :: cs, cur =>
    if c == '-' then String.mk cur.reverse :: dashSplit cs []
    else dashSplit cs (c :: cur)

/-- `str.split('-')` (model): never returns `[]`. -/
def splitDash (s : String) : List String := dashSplit s.data []

/-- Value of a decimal digit list (most significant first). -/
def digitsVal : List Char → Nat → Nat
  | [], acc => acc
  | c :: cs, acc => digitsVal cs (acc * 10 + (c.toNat - 48))

/-- Model of Python's `int(s)` on a string: strip whitespace, optional sign,
then one or more decimal digits; anything else raises `ValueError`, modelled
as `none`.  (Python additionally allows `_` between digits; none of the inputs
the core feeds this can contain one.) -/
def pyInt (s : String) : Option Int :=
  let t := (pyStrip s).data
  let signed : Int × List Char :=
    match t with
    | '+' :: rest => (1, rest)
    | '-' :: rest => (-1, rest)
    | l => (1, l)
  if signed.2.isEmpty then none
  else if signed.2.all Char.isDigit then some (signed.1 * digitsVal signed.2 0)
  else none

/-- `str.isupper()` (ASCII model): has at least one letter and no lowercase
letter. -/
def pyIsUpper (s : String) : Bool :=
  s.data.any Char.isAlpha && s.data.all (fun c => !c.isAlpha || ('A' ≤ c ∧ c ≤ 'Z'))

/-- `str.title()` (ASCII model): a letter is uppercased when not preceded by a
letter, lowercased otherwise. -/
def titleChars : List Char → Bool → List Char
  | [], _ => []
  | c :: cs, prevAlpha =>
    (if c.isAlpha then (if prevAlpha then pyLowerChar c else pyUpperChar c) else c)
      :: titleChars cs c.isAlpha

/-- `str.title()` (ASCII model). -/
def pyTitle (s : String) : String := String.mk (titleChars s.data false)

/-- Lexicographic (code-point) order on character lists, as Python compares
strings in `sorted(...)`. -/
def charsLe : List Char → List Char → Bool
  | [], _ => true
  | _ :: _, [] => false
  | a :: as, b :: bs => if a == b then charsLe as bs else decide (a < b)

/-- Code-point order on strings. -/
def strLe (a b : String) : Bool := charsLe a.data b.data

/-- Insert into a `strLe`-sorted list. -/
def insortStr (x : String) : List String → List String
  | [] => [x]
  | y :: ys => if strLe x y then x :: y :: ys else y :: insortStr x ys

/-- `sorted(...)` over strings (insertion sort; code-point order). -/
def sortStrings (l : List String) : List String := l.foldr insortStr []

/-! ## SHA-256 (model of `hashlib.sha256(text.encode()).hexdigest()`)

Words are `Nat` reduced mod `2^32`. -/

/-- `2^32`, the word modulus. -/
def w32 : Nat := 4294967296

/-- Addition mod `2^32`. -/
def add32 (a b : Nat) : Nat := (a + b) % w32

/-- Right rotation of a 32-bit word by `n`. -/
def rotr32 (n x : Nat) : Nat :=
  ((x >>> n) ||| (x <<< (32 - n))) % w32

/-- Bitwise xor of three 32-bit words. -/
def xor3 (a b c : Nat) : Nat := (a ^^^ b) ^^^ c

/-- The SHA-256 round constants (FIPS 180-4 sect. 4.2.2), as decimal words. -/
def shaK : List Nat :=
  [1116352408, 1899447441, 3049323471, 3921009573, 961987163,
   1508970993, 2453635748, 2870763221, 3624381080, 310598401,
   607225278, 1426881987, 1925078388, 2162078206, 2614888103,
   3248222580, 3835390401, 4022224774, 264347078, 604807628,
   770255983, 1249150122, 1555081692, 1996064986, 2554220882,
   2821834349, 2952996808, 3210313671, 3336571891, 3584528711,
   113926993, 338241895, 666307205, 773529912, 1294757372,
   1396182291, 1695183700, 1986661051, 2177026350, 2456956037,
   2730485921, 2820302411, 3259730800, 3345764771, 3516065817,
   3600352804, 4094571909, 275423344, 430227734, 506948616,
   659060556, 883997877, 958139571, 1322822218, 1537002063,
   1747873779, 1955562222, 2024104815, 2227730452, 2361852424,
   2428436474, 2756734187, 3204031479, 3329325298]

/-- The SHA-256 initial hash value (FIPS 180-4 sect. 5.3.3), as decimal words. -/
def shaH0 : List Nat :=
  [1779033703, 3144134277, 1013904242, 2773480762,
   1359893119, 2600822924, 528734635, 1541459225]

/-- Pad a byte message per FIPS 180-4: append `0x80`, zeros, and the 64-bit
big-endian bit length, to a multiple of 64 bytes. -/
def shaPad (msg : List Nat) : List Nat :=
  let bitLen := msg.length * 8
  let zeros := (55 + 64 - (msg.length % 64)) % 64
  msg ++ [0x80] ++ List.replicate zeros 0 ++
    (List.range 8).map (fun i => (bitLen >>> ((7 - i) * 8)) % 256)

/-- Read the sixteen big-endian 32-bit words of one 64-byte block. -/
def blockWords (block : List Nat) : List Nat :=
  (List.range 16).map (fun i =>
    (block.getD (4 * i) 0) <<< 24 ||| (block.getD (4 * i + 1) 0) <<< 16 |||
    (block.getD (4 * i + 2) 0) <<< 8 ||| block.getD (4 * i + 3) 0)

/-- Extend the 16 block words to the 64-entry message schedule. -/
def shaSchedule (t : Nat) (w : List Nat) : List Nat :=
  match t with
  | 0 => w
  | t' + 1 =>
    let w := shaSchedule t' w
    let i := w.length
    let x15 := w.getD (i - 15) 0
    let x2 := w.getD (i - 2) 0
    let s0 := xor3 (rotr32 7 x15) (rotr32 18 x15) (x15 >>> 3)
    let s1 := xor3 (rotr32 17 x2) (rotr32 19 x2) (x2 >>> 10)
    w ++ [add32 (add32 (w.getD (i - 16) 0) s0) (add32 (w.getD (i - 7) 0) s1)]

/-- One SHA-256 round on the working variables `[a,b,c,d,e,f,g,h]`. -/
def shaRound (vars : List Nat) (k wt : Nat) : List Nat :=
  match vars with
  | [a, b, c, d, e, f, g, h] =>
    let s1 := xor3 (rotr32 6 e) (rotr32 11 e) (rotr32 25 e)
    let ch := ((e &&& f) ^^^ ((w32 - 1 - e) &&& g)) % w32
    let t1 := add32 (add32 h s1) (add32 (add32 ch k) wt)
    let s0 := xor3 (rotr32 2 a) (rotr32 13 a) (rotr32 22 a)
    let mj := xor3 (a &&& b) (a &&& c) (b &&& c)
    let t2 := add32 s0 mj
    [add32 t1 t2, a, b, c, add32 d t1, e, f, g]
  | other => other

/-- Compress one 64-byte block into the running hash state. -/
def shaCompress (hs : List Nat) (block : List Nat) : List Nat :=
  let w := shaSchedule 48 (blockWords block)
  let vars := (List.range 64).foldl
    (fun v t => shaRound v (shaK.getD t 0) (w.getD t 0)) hs
  (List.range 8).map (fun i => add32 (hs.getD i 0) (vars.getD i 0))

/-- Fold the compression function over successive 64-byte blocks. -/
def shaBlocks (hs : List Nat) (msg : List Nat) : List Nat :=
  if msg.isEmpty then hs
  else shaBlocks (shaCompress hs (msg.take 64)) (msg.drop 64)
termination_by msg.length
decreasing_by
  simp only [List.length_drop]
  cases msg with
  | nil => simp_all
  | cons c cs => simp; omega

/-- Lowercase hex digit of a nibble. -/
def hexDigit (n : Nat) : Char :=
  if n < 10 then Char.ofNat (48 + n) else Char.ofNat (87 + n)

/-- A 32-bit word as 8 lowercase hex digits. -/
def wordHex (x : Nat) : List Char :=
  (List.range 8).map (fun i => hexDigit ((x >>> ((7 - i) * 4)) % 16))

/-- The UTF-8 bytes of a string (model of `str.encode()`). -/
def utf8Bytes (s : String) : List Nat := s.toUTF8.toList.map (fun b => b.toNat)

/-- `hashlib.sha256(s.encode()).hexdigest()`: the full SHA-256 hex digest. -/
def sha256hex (s : String) : String :=
  let final := shaBlocks shaH0 (shaPad (utf8Bytes s))
  String.mk (final.foldr (fun x acc => wordHex x ++ acc) [])

/-! ## Data model (`app/models.py`) -/

/-- `Contact` (`models.py`). -/
structure Contact where
  email : Option String := none
  phone : Option String := none
  linkedin : Option String := none
  website : Option String := none
deriving DecidableEq

/-- `Experience` (`models.py`).  `bullet_impact_score` is a Python float,
modelled as `ℚ`. -/
structure Experience where
  title : String
  company : String
  start_date : String
  end_date : Option String := none
  location : Option String := none
  description : Option String := none
  responsibilities : List String := []
  bullet_impact_score : ℚ := 0
deriving DecidableEq

/-- `Education` (`models.py`). -/
structure Education where
  degree : String
  institution : String
  field_of_study : Option String := none
  start_date : Option String := none
  end_date : Option String := none
  gpa : Option String := none
  location : Option String := none
  honors : Option String := none
  year : Option String := none
deriving DecidableEq

/-- `Certification` (`models.py`). -/
structure Certification where
  name : String
  issuing_organization : Option String := none
  issue_date : Option String := none
  expiry_date : Option String := none
  credential_id : Option String := none
  credential_url : Option String := none
deriving DecidableEq

/-- `Project` (`models.py`). -/
structure Project where
  name : String
  description : Option String := none
  technologies : List String := []
  url : Option String := none
  start_date : Option String := none
  end_date : Option String := none
deriving DecidableEq

/-- `Resume` (`models.py`).  `parsed_at` (a `datetime`) is modelled as a `Nat`
timestamp; `file_id` is attached by the upload router, not the parser. -/
structure Resume where
  name : String
  contact : Option Contact := none
  summary : Option String := none
  skills : List String := []
  experiences : List Experience := []
  education : List Education := []
  projects : List Project := []
  certifications : List Certification := []
  achievements : List String := []
  languages : List String := []
  awards : List String := []
  parsed_at : Nat := 0
  resume_hash : String
  source : String := "upload"
  file_id : Option String := none
deriving DecidableEq

/-- `JobDescription` (`models.py`). -/
structure JobDescription where
  title : String := "Job Position"
  description : String
  required_skills : List String := []
  preferred_skills : List String := []
  experience_years : Option Int := none
deriving DecidableEq

/-! ## `GeminiService._enhanced_fallback_parse` (`gemini_service.py`)

The rule-based fallback parser: pure and local.  Its scanning phase is total,
but the final `Resume(**data)` construction validates the record with
pydantic, whose only fallible field here is `Contact.email` (`EmailStr`,
`models.py` line 47): the fallback email regular expression matches strings
that `email_validator` rejects, in which case `Resume(...)` raises
`ValidationError`.  The contact-field regular-expression searches
(`re.search`) are embedded as executable leftmost-greedy scanners over
`List Char`. -/

/-- The stripped, non-empty lines of the input
(`[line.strip() for line in resume_text.split('\n') if line.strip()]`). -/
def fallbackLines (text : String) : List String :=
  ((linesOf text.data []).map pyStrip).filter (fun l => l ≠ "")

/-- Name heuristic: first of the first 5 lines with no `'@'`, no `"http"`
(case-folded), at most 4 words and no digit; else `"Unknown Candidate"`. -/
def fallbackName (lines : List String) : String :=
  match (lines.take 5).find? (fun line =>
      !(strContains line "@") && !(strContains (pyLower line) "http") &&
      decide ((pyWords line).length ≤ 4) && !(line.data.any Char.isDigit)) with
  | some l => l
  | none => "Unknown Candidate"

/-- Character class of the local part of the email pattern
`[A-Za-z0-9._%+-]+`. -/
def isEmailLocalChar (c : Char) : Bool :=
  c.isAlphanum || c == '.' || c == '_' || c == '%' || c == '+' || c == '-'

/-- Character class of the domain part of the email pattern `[A-Za-z0-9.-]+`. -/
def isEmailDomainChar (c : Char) : Bool :=
  c.isAlphanum || c == '.' || c == '-'

/-- Attempt the email pattern `[A-Za-z0-9._%+-]+@[A-Za-z0-9.-]+\.[A-Za-z]{2,}`
at the head of `l`: greedy local part, `'@'`, greedy domain whose final
dot-separated label is alphabetic of length ≥ 2. -/
def tryEmailAt (l : List Char) : Option (List Char) :=
  let loc := l.takeWhile isEmailLocalChar
  if loc.isEmpty then none
  else
    match l.drop loc.length with
    | '@' :: rest =>
      let dom := rest.takeWhile isEmailDomainChar
      let revd := dom.reverse
      let tld := revd.takeWhile Char.isAlpha
      if decide (2 ≤ tld.length) && (revd.drop tld.length).headD ' ' == '.' &&
          decide (tld.length + 2 ≤ dom.length) then
        some (loc ++ '@' :: dom)
      else none
    | _ => none

/-- `re.search` for the email pattern: leftmost match. -/
def findEmail : List Char → Option String
  | [] => none
  | c :: cs =>
    match tryEmailAt (c :: cs) with
    | some m => some (String.mk m)
    | none => findEmail cs

/-- Take exactly `n` decimal digits off the head of `l`. -/
def takeDigits (n : Nat) (l : List Char) : Option (List Char) :=
  match n, l with
  | 0, l => some l
  | _ + 1, [] => none
  | n + 1, c :: cs => if c.isDigit then takeDigits n cs else none

/-- Consume an optional separator `[-.\s]?` (greedy). -/
def dropOptSep (l : List Char) : List Char :=
  match l with
  | c :: cs => if c == '-' || c == '.' || isPySpace c then cs else l
  | [] => []

/-- Consume an optional literal character (greedy). -/
def dropOptChar (ch : Char) (l : List Char) : List Char :=
  match l with
  | c :: cs => if c == ch then cs else l
  | [] => []

/-- Attempt the tail `\(?\d{3}\)?[-.\s]?\d{3}[-.\s]?\d{4}` of the phone
patterns at the head of `l`; returns the remaining characters. -/
def tryPhoneTail (l : List Char) : Option (List Char) :=
  (takeDigits 3 (dropOptChar '(' l)).bind fun r =>
    (takeDigits 3 (dropOptSep (dropOptChar ')' r))).bind fun r2 =>
      takeDigits 4 (dropOptSep r2)

/-- Attempt the international phone pattern
`\+?\d{1,3}[-.\s]?\(?\d{3}\)?[-.\s]?\d{3}[-.\s]?\d{4}` at the head of `l`
(the `\d{1,3}` tries 3, then 2, then 1 digits, as the greedy regex does). -/
def tryPhoneIntl (l : List Char) : Option (List Char) :=
  let l0 := dropOptChar '+' l
  [3, 2, 1].firstM fun k =>
    (takeDigits k l0).bind fun r => tryPhoneTail (dropOptSep r)

/-- Leftmost-match scan of a head-matcher `p`; returns the matched slice. -/
def scanFor (p : List Char → Option (List Char)) : List Char → Option String
  | [] => none
  | c :: cs =>
    match p (c :: cs) with
    | some rest => some (String.mk ((c :: cs).take ((c :: cs).length - rest.length)))
    | none => scanFor p cs

/-- The phone-number search: the international pattern first, then the plain
US pattern, mirroring the `for pattern in phone_patterns` loop. -/
def findPhone (l : List Char) : Option String :=
  match scanFor tryPhoneIntl l with
  | some m => some m
  | none => scanFor tryPhoneTail l

/-- Case-insensitive literal match at the head of `l`; returns the rest. -/
def dropLitCI : List Char → List Char → Option (List Char)
  | [], l => some l
  | _ :: _, [] => none
  | a :: as, b :: bs => if pyLowerChar b == a then dropLitCI as bs else none

/-- Character class `[\w-]`. -/
def isWordDashChar (c : Char) : Bool := c.isAlphanum || c == '_' || c == '-'

/-- Attempt `lit` (case-insensitively) followed by a nonempty `[\w-]+` run. -/
def tryLitWordRun (lit : List Char) (l : List Char) : Option (List Char) :=
  (dropLitCI lit l).bind fun rest =>
    let run := rest.takeWhile isWordDashChar
    if run.isEmpty then none else some (rest.drop run.length)

/-- The LinkedIn search: `linkedin\.com/in/[\w-]+`, then
`linkedin\.com/pub/[\w-]+` (both case-insensitive). -/
def findLinkedin (l : List Char) : Option String :=
  match scanFor (tryLitWordRun "linkedin.com/in/".data) l with
  | some m => some m
  | none => scanFor (tryLitWordRun "linkedin.com/pub/".data) l

/-- Attempt a dotted-domain run `[a-zA-Z0-9.-]+\.[a-zA-Z]{2,}` at the head of
`l` (greedy run whose final dot-separated label is alphabetic of length ≥ 2;
the `re.IGNORECASE` flag makes the `[a-z]{2,}` of the source pattern
case-insensitive). -/
def tryDottedDomain (l : List Char) : Option (List Char) :=
  let dom := l.takeWhile isEmailDomainChar
  let revd := dom.reverse
  let tld := revd.takeWhile Char.isAlpha
  if decide (2 ≤ tld.length) && (revd.drop tld.length).headD ' ' == '.' &&
      decide (tld.length + 2 ≤ dom.length) then
    some (l.drop dom.length)
  else none

/-- Attempt `github\.com/[\w-]+` (case-insensitive). -/
def tryGithub (l : List Char) : Option (List Char) :=
  tryLitWordRun "github.com/".data l

/-- Attempt `portfolio\.[a-zA-Z0-9.-]+\.[a-z]{2,}` (case-insensitive). -/
def tryPortfolio (l : List Char) : Option (List Char) :=
  (dropLitCI "portfolio.".data l).bind tryDottedDomain

/-- Attempt `https?://[a-zA-Z0-9.-]+\.[a-z]{2,}` (case-insensitive). -/
def tryHttpUrl (l : List Char) : Option (List Char) :=
  (dropLitCI "http".data l).bind fun r =>
    let r1 := dropOptChar 's' r
    (dropLitCI "://".data r1).bind tryDottedDomain

/-- The website-search loop: for each pattern in order, on a match record it
and stop unless the match contains `"linkedin"` (case-folded), in which case
the recorded value may still be overwritten by a later pattern. -/
def websiteLoop (text : List Char) (acc : Option String) :
    List (List Char → Option (List Char)) → Option String
  | [] => acc
  | p :: ps =>
    match scanFor p text with
    | some m =>
      if !(strContains (pyLower m) "linkedin") then some m
      else websiteLoop text (some m) ps
    | none => websiteLoop text acc ps

/-- The website search (`github`, `portfolio`, generic `https?://` patterns). -/
def findWebsite (l : List Char) : Option String :=
  websiteLoop l none [tryGithub, tryPortfolio, tryHttpUrl]

/-- The fixed skill vocabulary (`skill_database` in
`_enhanced_fallback_parse`, verbatim). -/
def skill_database : List String :=
  ["python", "java", "javascript", "typescript", "c++", "c#", "ruby", "php",
   "go", "golang", "rust", "swift", "kotlin", "scala", "r", "matlab",
   "react", "angular", "vue", "svelte", "next.js", "nuxt", "django", "flask",
   "fastapi", "express", "node.js", "spring boot", "asp.net", "laravel",
   "mysql", "postgresql", "mongodb", "redis", "elasticsearch", "cassandra",
   "dynamodb", "oracle", "sql server", "sqlite", "neo4j",
   "aws", "azure", "google cloud", "gcp", "docker", "kubernetes", "jenkins",
   "terraform", "ansible", "ci/cd", "gitlab", "github actions",
   "machine learning", "deep learning", "tensorflow", "pytorch", "scikit-learn",
   "pandas", "numpy", "data science", "data analysis", "spark", "hadoop",
   "git", "jira", "confluence", "slack", "postman", "graphql", "rest api",
   "microservices", "agile", "scrum", "linux", "bash",
   "seo", "sem", "google analytics", "content marketing", "social media",
   "email marketing", "hubspot", "mailchimp", "a/b testing"]

/-- Fallback skills: vocabulary entries contained in the lowercased text,
title-cased, deduplicated and sorted. -/
def fallbackSkills (textLower : String) : List String :=
  sortStrings (((skill_database.filter
    (fun sk => strContains textLower sk)).map pyTitle).dedup)

/-- The summary placeholder used when no summary section is found. -/
def fallbackSummaryDefault : String :=
  "Parsed with enhanced fallback method - please review and update as needed"

/-- Summary scan: find the first line whose lowercase form contains one of
`summary/objective/profile/about`; collect up to 5 following lines, stopping
at an empty or all-caps line; join with spaces, else the placeholder. -/
def fallbackSummary (lines : List String) : String :=
  match lines.findIdx? (fun line =>
      ["summary", "objective", "profile", "about"].any
        (fun kw => strContains (pyLower line) kw)) with
  | some i =>
    let collected := ((lines.drop (i + 1)).take 5).takeWhile
      (fun l => l ≠ "" && !(pyIsUpper l))
    if collected.isEmpty then fallbackSummaryDefault
    else String.intercalate " " collected
  | none => fallbackSummaryDefault

/-- Attempt the separator `\s+[-–|]\s+` at the head of `l`; returns the rest. -/
def trySep : List Char → Option (List Char)
  | [] => none
  | c :: cs =>
    if isPySpace c then
      match dropSpaces cs with
      | [] => none
      | d :: r2 =>
        if d == '-' || d == '–' || d == '|' then
          match r2 with
          | [] => none
          | e :: r3 => if isPySpace e then some (dropSpaces r3) else none
        else none
    else none

theorem dropSpaces_length_le (l : List Char) : (dropSpaces l).length ≤ l.length := by
  induction l with
  | nil => simp [dropSpaces]
  | cons c cs ih =>
    simp only [dropSpaces]
    split
    · exact Nat.le_succ_of_le ih
    · simp

theorem trySep_length_lt (l r : List Char) (h : trySep l = some r) :
    r.length < l.length := by
  cases l with
  | nil => simp [trySep] at h
  | cons c cs =>
    simp only [trySep] at h
    split at h
    · cases h2 : dropSpaces cs with
      | nil => rw [h2] at h; simp at h
      | cons d r2 =>
        rw [h2] at h
        simp only [] at h
        split at h
        · cases r2 with
          | nil => simp at h
          | cons e r3 =>
            simp only [] at h
            split at h
            · have hr : dropSpaces r3 = r := Option.some.inj h
              have h3 : (d :: e :: r3).length ≤ cs.length := by
                rw [← h2]; exact dropSpaces_length_le cs
              have h4 := dropSpaces_length_le r3
              rw [hr] at h4
              simp only [List.length_cons] at h3 ⊢
              omega
            · simp at h
        · simp at h
    · simp at h

/-- `re.split(r'\s+[-–|]\s+', line)` (model): split at each
whitespace–dash/bar–whitespace separator. -/
def sepSplit : List Char → List Char → List String
  | [], cur => [String.mk cur.reverse]
  | c :: cs, cur =>
    match hs : trySep (c :: cs) with
    | some rest => String.mk cur.reverse :: sepSplit rest []
    | none => sepSplit cs (c :: cur)
termination_by l _ => l.length
decreasing_by
  · exact trySep_length_lt _ _ hs
  · simp

/-- The experience-section keywords. -/
def experience_keywords : List String :=
  ["experience", "employment", "work history", "professional experience"]

/-- State of the experience-section line scan: whether we are inside the
section, the entry under construction, and the accumulated entries. -/
structure ExpScan where
  inSection : Bool := false
  current : Option Experience := none
  acc : List Experience := []

/-- One line of the experience scan, mirroring the `for line in lines` body:
an experience heading (< 5 words) opens the section; an `"education"` line
(< 3 words) closes it; inside the section, a line containing `'|'`, `' - '`
or `' – '` that splits into ≥ 2 parts flushes the current entry and starts a
new one with the `"Unknown"` start-date sentinel. -/
def scanExpLine (st : ExpScan) (line : String) : ExpScan :=
  let ll := pyLower line
  if experience_keywords.any (fun kw => strContains ll kw) &&
      decide ((pyWords line).length < 5) then
    { st with inSection := true }
  else
    let st :=
      if strContains ll "education" && decide ((pyWords line).length < 3) then
        { st with inSection := false }
      else st
    if st.inSection then
      if strContains line "|" || strContains line " - " || strContains line " – " then
        let parts := sepSplit line.data []
        if 2 ≤ parts.length then
          let acc' := match st.current with
            | some e => st.acc ++ [e]
            | none => st.acc
          let e : Experience :=
            { title := if parts.headD "" ≠ "" then parts.headD "" else "Position"
              company := if 1 < parts.length then parts.getD 1 "" else "Company"
              start_date := "Unknown"
              end_date := none
              location := if 2 < parts.length then some (parts.getD 2 "") else none
              responsibilities := []
              bullet_impact_score := 3/10 }
          { st with current := some e, acc := acc' }
        else st
      else st
    else st

/-- The experience extraction of `_enhanced_fallback_parse`: scan all lines,
then flush the final entry unless an equal entry was already appended. -/
def fallbackExperiences (lines : List String) : List Experience :=
  let st := lines.foldl scanExpLine {}
  match st.current with
  | some e => if e ∈ st.acc then st.acc else st.acc ++ [e]
  | none => st.acc

/-- Split a character list at every occurrence of `sep`. -/
def splitOnChar (sep : Char) : List Char → List Char → List String
  | [], cur => [String.mk cur.reverse]
  | c :: cs, cur =>
    if c == sep then String.mk cur.reverse :: splitOnChar sep cs []
    else splitOnChar sep cs (c :: cur)

/-- The normalized form `EmailStr` stores for an accepted address: the domain
part lowercased (`email_validator`'s `normalized`), the local part kept. -/
def emailStrNormalize (s : String) : String :=
  match splitOnChar '@' s.data [] with
  | [lp, dp] => lp ++ "@" ++ pyLower dp
  | _ => s

/-- The argument of `Resume(**data)` at the end of
`_enhanced_fallback_parse`: the record the fallback parser constructs when
the pydantic validation succeeds, with the email in the normalized form
`EmailStr` stores.  Stamps `source = "enhanced-fallback"` and
`resume_hash = sha256(resume_text)`.  The validation that can reject this
record is applied in `enhanced_fallback_parse`. -/
def fallback_record (resume_text : String) (now : Nat) : Resume :=
  let lines := fallbackLines resume_text
  let textLower := pyLower resume_text
  let skills := fallbackSkills textLower
  { name := fallbackName lines
    contact := some
      { email := (findEmail resume_text.data).map emailStrNormalize
        phone := findPhone resume_text.data
        linkedin := findLinkedin resume_text.data
        website := findWebsite resume_text.data }
    summary := some (fallbackSummary lines)
    skills := if skills.isEmpty then
        ["Manual review required - no skills auto-detected"]
      else skills
    experiences := fallbackExperiences lines
    education := []
    projects := []
    certifications := []
    achievements := []
    languages := []
    awards := []
    parsed_at := now
    resume_hash := sha256hex resume_text
    source := "enhanced-fallback"
    file_id := none }

/-- The resume fields produced by a successful LLM extraction, after the
string-to-object normalization of certifications and projects — everything
`Resume(**data)` receives except the three metadata fields `_call_gemini`
stamps itself (`parsed_at`, `resume_hash`, `source`). -/
structure ResumeContent where
  name : String
  contact : Option Contact := none
  summary : Option String := none
  skills : List String := []
  experiences : List Experience := []
  education : List Education := []
  projects : List Project := []
  certifications : List Certification := []
  achievements : List String := []
  languages : List String := []
  awards : List String := []
deriving DecidableEq

/-- The tail of `_call_gemini`: on success, stamp `parsed_at`,
`resume_hash = sha256(resume_text)` and `source = "gemini-enhanced"` onto the
extracted content; a failed attempt produces nothing. -/
def call_gemini (outcome : Option ResumeContent) (resume_text : String)
    (now : Nat) : Option Resume :=
  outcome.map fun c =>
    { name := c.name
      contact := c.contact
      summary := c.summary
      skills := c.skills
      experiences := c.experiences
      education := c.education
      projects := c.projects
      certifications := c.certifications
      achievements := c.achievements
      languages := c.languages
      awards := c.awards
      parsed_at := now
      resume_hash := sha256hex resume_text
      source := "gemini-enhanced"
      file_id := none }

/-- `GeminiService.parse_resume(resume_text)`: standard attempt, then strict
attempt, then the rule-based fallback.  `attempt1` and `attempt2` are the
outcomes of the two external calls.  This function gives the record
`parse_resume` returns on the paths where it returns one — the claims about
produced records (content hash, dedup, fallback experience entries) are
stated over it.  The third attempt of the source is *not* wrapped in
`try/except` (`gemini_service.py` line 230), so its pydantic
`ValidationError` propagates; that error path is modelled faithfully by
`parse_resume_checked` below, which agrees with this function on every `ok`
outcome (`parse_resume_checked_ok`). -/
def parse_resume (attempt1 attempt2 : Option ResumeContent)
    (resume_text : String) (now : Nat) : Resume :=
  match call_gemini attempt1 resume_text now with
  | some r => r
  | none =>
    match call_gemini attempt2 resume_text now with
    | some r => r
    | none => fallback_record resume_text now

/-- `round(x, 2)` over `ℚ`. -/
def round2 (x : ℚ) : ℚ := (round (x * 100) : ℤ) / 100

/-- `round(x, 1)` over `ℚ`. -/
def round1 (x : ℚ) : ℚ := (round (x * 10) : ℤ) / 10

/-- A normalized skill set: `set(skill.lower().strip() for skill in l if skill)`,
modelled as a deduplicated list (order is irrelevant to every use). -/
def skillSet (l : List String) : List String :=
  ((l.filter (fun s => s ≠ "")).map (fun s => pyStrip (pyLower s))).dedup

/-- `|a ∩ b|` for deduplicated lists. -/
def interCount (a b : List String) : Nat :=
  (a.filter (fun s => b.contains s)).length

/-- `_calculate_skills_score`: 50.0 when the job lists no skills, 0.0 when
the resume has none, else `min(100, 100·(0.7·req_ratio + 0.3·pref_ratio))`
with the ratios defaulting to 1.0 / 0.5 on an empty denominator set. -/
def calculate_skills_score (resume : Resume) (job : JobDescription) : ℚ :=
  let resume_skills := skillSet resume.skills
  let required_skills := skillSet job.required_skills
  let preferred_skills := skillSet job.preferred_skills
  let all_job_skills := (required_skills ++ preferred_skills).dedup
  if all_job_skills.isEmpty then 50
  else if resume_skills.isEmpty then 0
  else
    let required_pct : ℚ :=
      if !required_skills.isEmpty then
        (interCount resume_skills required_skills : ℚ) / required_skills.length
      else 1
    let preferred_pct : ℚ :=
      if !preferred_skills.isEmpty then
        (interCount resume_skills preferred_skills : ℚ) / preferred_skills.length
      else 1/2
    min ((required_pct * (7/10) + preferred_pct * (3/10)) * 100) 100

/-- The per-entry contribution of `_calculate_total_experience_years`:
`none` models `continue` (falsy `start_date`, or an unparseable year raising
inside the `try`), `some y` the `max(end_year - start_year, 0)` added to the
total. -/
def experienceEntryYears (currentYear : Int) (e : Experience) : Option Int :=
  if e.start_date = "" then none
  else
    match pyInt ((splitDash e.start_date).headD "") with
    | none => none
    | some start_year =>
      match e.end_date with
      | none => some (max (currentYear - start_year) 0)
      | some ed =>
        if ed = "" || pyLower ed = "present" || pyLower ed = "current" then
          some (max (currentYear - start_year) 0)
        else
          match pyInt ((splitDash ed).headD "") with
          | none => none
          | some end_year => some (max (end_year - start_year) 0)

/-- Sum of the per-entry contributions (skipped entries add nothing). -/
def sumExperienceYears (currentYear : Int) : List Experience → Int
  | [] => 0
  | e :: es => (experienceEntryYears currentYear e).getD 0 +
      sumExperienceYears currentYear es

/-- `_calculate_total_experience_years`: sum the per-entry years and round to
one decimal (the sum is always an integer, so the rounding is the identity;
it is kept for fidelity to `round(total_years, 1)`). -/
def calculate_total_experience_years (currentYear : Int) (resume : Resume) : ℚ :=
  round1 ((sumExperienceYears currentYear resume.experiences : ℤ) : ℚ)

/-- `_calculate_experience_score`: 0.0 with no experience entries or zero
computed years; 70.0 when the job sets no requirement; 100.0 when within
1.5× the requirement; overqualification penalty floored at 85.0; otherwise
a proportional score floored at 10.0. -/
def calculate_experience_score (currentYear : Int) (resume : Resume)
    (job : JobDescription) : ℚ :=
  if resume.experiences.isEmpty then 0
  else
    let total_years := calculate_total_experience_years currentYear resume
    if total_years = 0 then 0
    else
      let required_years : Int := job.experience_years.getD 0
      if required_years = 0 then 70
      else if (required_years : ℚ) ≤ total_years then
        if total_years ≤ (required_years : ℚ) * (3/2) then 100
        else max (100 - (total_years - required_years) * (3/2)) 85
      else max (total_years / required_years * 70) 10

/-- The concatenated lowercased education text
(`" ".join(f"{degree} {institution} {field_of_study or ''}".lower() ...)`). -/
def educationText (resume : Resume) : String :=
  String.intercalate " " (resume.education.map (fun edu =>
    pyLower (edu.degree ++ " " ++ edu.institution ++ " " ++ edu.field_of_study.getD "")))

/-- Does any of the keywords occur in the text? -/
def anyKeywordIn (text : String) (kws : List String) : Bool :=
  kws.any (fun kw => strContains text kw)

/-- `_calculate_education_score`: 30.0 with no education entries; otherwise a
highest-tier-wins keyword scan of the concatenated education text, base 50.0. -/
def calculate_education_score (resume : Resume) (_job : JobDescription) : ℚ :=
  if resume.education.isEmpty then 30
  else
    let text := educationText resume
    if anyKeywordIn text ["phd", "doctorate", "doctoral"] then 100
    else if anyKeywordIn text ["master", "mba", "msc", "ma", "ms"] then 90
    else if anyKeywordIn text ["bachelor", "bsc", "ba", "bs", "btech", "be"] then 80
    else if anyKeywordIn text ["associate", "diploma", "certificate"] then 70
    else 50

/-- Word-character class of `\w`. -/
def isWordChar (c : Char) : Bool := c.isAlphanum || c == '_'

/-- The maximal word-character runs of a string (what `\b\w{4,}\b` matches are
the runs of length ≥ 4). -/
def wordRuns : List Char → List Char → List String
  | [], cur => if cur.isEmpty then [] else [String.mk cur.reverse]
  | c :: cs, cur =>
    if isWordChar c then wordRuns cs (c :: cur)
    else if cur.isEmpty then wordRuns cs [] else String.mk cur.reverse :: wordRuns cs []

/-- `set(re.findall(r'\b\w{4,}\b', text))`: the distinct word-character runs
of length ≥ 4, as a deduplicated list. -/
def keywordSet (text : String) : List String :=
  ((wordRuns text.data []).filter (fun w => decide (4 ≤ w.length))).dedup

/-- The fixed stop-word set subtracted from both keyword sets. -/
def common_words : List String :=
  ["with", "that", "this", "from", "have", "will", "your", "about",
   "other", "which", "their", "there", "would", "could", "should",
   "experience", "work", "working", "years", "knowledge"]

/-- `_calculate_semantic_score`: keyword-overlap ratio between the resume
text and the job text, neutral 50.0 when the job yields no keywords. -/
def calculate_semantic_score (resume : Resume) (job : JobDescription) : ℚ :=
  let resume_text := pyLower (String.intercalate " "
    [resume.name, resume.summary.getD "", String.intercalate " " resume.skills,
     String.intercalate " " (resume.experiences.map (fun exp =>
       exp.title ++ " " ++ exp.company ++ " " ++ exp.description.getD ""))])
  let job_text := pyLower (job.title ++ " " ++ job.description)
  let job_keywords := (keywordSet job_text).filter (fun w => !common_words.contains w)
  let resume_keywords := (keywordSet resume_text).filter (fun w => !common_words.contains w)
  if job_keywords.isEmpty then 50
  else min ((interCount resume_keywords job_keywords : ℚ) / job_keywords.length * 100) 100

/-- `_get_matched_skills`: sorted intersection of the resume's skills with
all job skills. -/
def get_matched_skills (resume : Resume) (job : JobDescription) : List String :=
  let resume_skills := skillSet resume.skills
  let all_job_skills := (skillSet job.required_skills ++ skillSet job.preferred_skills).dedup
  sortStrings (resume_skills.filter (fun s => all_job_skills.contains s))

/-- `_get_missing_skills`: sorted required skills absent from the resume. -/
def get_missing_skills (resume : Resume) (job : JobDescription) : List String :=
  let resume_skills := skillSet resume.skills
  let required_skills := skillSet job.required_skills
  sortStrings (required_skills.filter (fun s => !resume_skills.contains s))

/-- The four-axis breakdown of a match score (each entry rounded to two
decimals by its producer). -/
structure ScoreBreakdown where
  skills_score : ℚ
  experience_score : ℚ
  education_score : ℚ
  semantic_score : ℚ
deriving DecidableEq

/-- The score dictionary returned by the scorer.  The AI path additionally
carries `strengths`/`gaps` (empty on the heuristic path, whose dictionary
omits those keys). -/
structure MatchScore where
  total_score : ℚ
  breakdown : ScoreBreakdown
  matched_skills : List String
  missing_skills : List String
  strengths : List String := []
  gaps : List String := []
  experience_years : ℚ
  ai_powered : Bool
deriving DecidableEq

/-- The JSON payload parsed out of the Gemini scoring response, after the
`float(ai_result.get(axis, 0))` conversions: the four axis scores and the
list fields.  Parse failures of the external call never reach this type (they
are the `none` outcome of `calculate_match_score`). -/
structure AiResult where
  skills_score : ℚ
  experience_score : ℚ
  education_score : ℚ
  semantic_score : ℚ
  matched_skills : List String := []
  missing_skills : List String := []
  strengths : List String := []
  gaps : List String := []
deriving DecidableEq

/-- The tail of `_calculate_ai_score`: weight the four AI axis scores
0.4/0.3/0.2/0.1, round everything to two decimals, and attach the computed
experience years. -/
def calculate_ai_score (currentYear : Int) (ai : AiResult) (resume : Resume)
    (_job : JobDescription) : MatchScore :=
  let total_score := ai.skills_score * (4/10) + ai.experience_score * (3/10) +
    ai.education_score * (2/10) + ai.semantic_score * (1/10)
  { total_score := round2 total_score
    breakdown :=
      { skills_score := round2 ai.skills_score
        experience_score := round2 ai.experience_score
        education_score := round2 ai.education_score
        semantic_score := round2 ai.semantic_score }
    matched_skills := ai.matched_skills
    missing_skills := ai.missing_skills
    strengths := ai.strengths
    gaps := ai.gaps
    experience_years := calculate_total_experience_years currentYear resume
    ai_powered := true }

/-- `_calculate_fallback_score`: the deterministic rule-based score with the
same 0.4/0.3/0.2/0.1 weighting. -/
def calculate_fallback_score (currentYear : Int) (resume : Resume)
    (job : JobDescription) : MatchScore :=
  let skills_score := calculate_skills_score resume job
  let experience_score := calculate_experience_score currentYear resume job
  let education_score := calculate_education_score resume job
  let semantic_score := calculate_semantic_score resume job
  let total_score := skills_score * (4/10) + experience_score * (3/10) +
    education_score * (2/10) + semantic_score * (1/10)
  { total_score := round2 total_score
    breakdown :=
      { skills_score := round2 skills_score
        experience_score := round2 experience_score
        education_score := round2 education_score
        semantic_score := round2 semantic_score }
    matched_skills := get_matched_skills resume job
    missing_skills := get_missing_skills resume job
    experience_years := calculate_total_experience_years currentYear resume
    ai_powered := false }

/-- `EnhancedResumeScorer.calculate_match_score`: try the AI path, and on any
exception fall back to the rule-based score.  `aiOutcome` is the result of
the external AI path: `none` models any raised exception (network failure,
JSON parse failure, missing/unconvertible fields). -/
def calculate_match_score (currentYear : Int) (aiOutcome : Option AiResult)
    (resume : Resume) (job : JobDescription) : MatchScore :=
  match aiOutcome with
  | some ai => calculate_ai_score currentYear ai resume job
  | none => calculate_fallback_score currentYear resume job

/-! ## Claim verification

`Rat.mul`/`Rat.add`/`Rat.sub`/`Rat.inv` are `@[irreducible]` in the library;
they are unsealed so that concrete scores evaluate by `decide`. -/

unseal Rat.mul Rat.add Rat.sub Rat.inv

/-- Scenario A's resume: skills `["Python", "React"]`. -/
def rScenA : Resume := { name := "Alex", resume_hash := "", skills := ["Python", "React"] }

/-- Scenario A's job description: required `["Python", "React", "AWS"]`, no
preferred skills. -/
def jdScenA : JobDescription :=
  { description := "", required_skills := ["Python", "React", "AWS"], preferred_skills := [] }

/-- A job description listing no skills at all. -/
def jdNoSkills : JobDescription := { description := "Generalist role", experience_years := some 5 }

/-- A resume with no experience entries. -/
def rNoExp : Resume := { name := "Nia", resume_hash := "", skills := ["Python"] }

/-- A resume whose single experience entry has the `"Unknown"` start-date
sentinel, so its computed years are zero. -/
def rUnknownExp : Resume :=
  { name := "Uma", resume_hash := "",
    experiences := [{ title := "Engineer", company := "Acme", start_date := "Unknown" }] }

/-- C1: the heuristic experience axis is exactly 0 for an empty experience
list, and exactly 0 whenever the computed total experience years are 0, for
every job description (in particular for every `experience_years`
requirement). -/
theorem c1_experience_axis_zero (currentYear : Int) (r : Resume) (jd : JobDescription) :
    (r.experiences = [] → calculate_experience_score currentYear r jd = 0) ∧
    (calculate_total_experience_years currentYear r = 0 →
      calculate_experience_score currentYear r jd = 0) := by
  constructor
  · intro h
    simp [calculate_experience_score, h]
  · intro h
    unfold calculate_experience_score
    split
    · rfl
    · simp [h]

/-- C1 witness: concrete instances of both hypotheses — an empty experience
list, and an `"Unknown"`-dated entry computing to zero years — against a job
requiring 5 years. -/
theorem c1_experience_axis_zero_witness :
    calculate_experience_score 2025 rNoExp jdNoSkills = 0 ∧
    calculate_experience_score 2025 rUnknownExp jdNoSkills = 0 :=
  ⟨(c1_experience_axis_zero 2025 rNoExp jdNoSkills).1 rfl,
   (c1_experience_axis_zero 2025 rUnknownExp jdNoSkills).2 (by decide)⟩

/-- A small input text for the parse state machine. -/
def textW : String := "John Doe\nEngineer | Acme Corp\n"

/-- C3: whenever the AI scoring path fails (modelled by the `none` outcome,
covering network, JSON-parse and missing-field failures), the scorer returns
exactly the heuristic fallback score for the same inputs — no exception
escapes. -/
theorem c3_ai_failure_falls_back (currentYear : Int) (r : Resume) (jd : JobDescription) :
    calculate_match_score currentYear none r jd = calculate_fallback_score currentYear r jd :=
  rfl

theorem parse_resume_hash (a1 a2 : Option ResumeContent) (t : String) (n : Nat) :
    (parse_resume a1 a2 t n).resume_hash = sha256hex t := by
  cases a1 <;> cases a2 <;> rfl

/-- C4: every record produced by `parse_resume` — through the standard LLM
path, the strict retry, or the fallback — carries `resume_hash` equal to the
SHA-256 hex digest of the input text, so records parsed from identical text
have identical hashes regardless of path (and of the timestamps). -/
theorem c4_content_hash_path_independent (t : String) (n1 n2 : Nat)
    (a1 a2 b1 b2 : Option ResumeContent) :
    (parse_resume a1 a2 t n1).resume_hash = sha256hex t ∧
    (parse_resume a1 a2 t n1).resume_hash = (parse_resume b1 b2 t n2).resume_hash :=
  ⟨parse_resume_hash a1 a2 t n1,
   (parse_resume_hash a1 a2 t n1).trans (parse_resume_hash b1 b2 t n2).symm⟩

/-- C8 counterexample: on Scenario A's inputs the skills axis does not return
`100×(0.7×2/3)` (nor its two-decimal rounding 46.67) — because the preferred
ratio defaults to 0.5 when the job lists no preferred skills. -/
theorem c8_scenario_a_counterexample :
    calculate_skills_score rScenA jdScenA ≠ 100 * ((7/10) * (2/3)) ∧
    calculate_skills_score rScenA jdScenA ≠ 4667/100 := by
  constructor <;> decide

/-- C8 (amended): on Scenario A's inputs the skills axis returns
`100×(0.7×2/3 + 0.3×0.5) = 185/3 = 61.67` after two-decimal rounding — the
required ratio is 2/3 and the preferred ratio defaults to 0.5 on the empty
preferred set. -/
theorem c8_scenario_a_amended :
    calculate_skills_score rScenA jdScenA = 100 * ((7/10) * (2/3) + (3/10) * (1/2)) ∧
    round2 (calculate_skills_score rScenA jdScenA) = 6167/100 := by
  constructor <;> decide

theorem round2_err (x : ℚ) : |round2 x - x| ≤ 1/200 := by
  have h := abs_sub_round (x * 100)
  rw [abs_le] at h ⊢
  have key : round2 x - x = (((round (x * 100) : ℤ) : ℚ) - x * 100) / 100 := by
    unfold round2; ring
  constructor <;> [skip; skip] <;>
    · rw [key]
      rcases h with ⟨h1, h2⟩
      linarith

/-- Rounding the weighted sum differs from the weighted sum of the rounded
components by at most 1/100. -/
theorem weighted_round2_bound (s e ed se : ℚ) :
    |round2 (s * (4/10) + e * (3/10) + ed * (2/10) + se * (1/10)) -
      (round2 s * (4/10) + round2 e * (3/10) + round2 ed * (2/10) +
        round2 se * (1/10))| ≤ 1/100 := by
  have h0 := round2_err (s * (4/10) + e * (3/10) + ed * (2/10) + se * (1/10))
  have h1 := round2_err s
  have h2 := round2_err e
  have h3 := round2_err ed
  have h4 := round2_err se
  rw [abs_le] at h0 h1 h2 h3 h4 ⊢
  constructor <;> nlinarith [h0.1, h0.2, h1.1, h1.2, h2.1, h2.2, h3.1, h3.2, h4.1, h4.2]

/-- C6: for a `MatchScore` produced by either strategy, the total differs
from the 0.4/0.3/0.2/0.1-weighted sum of the four (two-decimal-rounded)
breakdown components by at most the rounding slack 1/100 — both are
two-decimal roundings of the same underlying weighted sum. -/
theorem c6_total_is_weighted_sum (currentYear : Int) (ai : AiResult) (r : Resume)
    (jd : JobDescription) (ms : MatchScore)
    (h : ms = calculate_ai_score currentYear ai r jd ∨
      ms = calculate_fallback_score currentYear r jd) :
    |ms.total_score - (ms.breakdown.skills_score * (4/10) +
      ms.breakdown.experience_score * (3/10) + ms.breakdown.education_score * (2/10) +
      ms.breakdown.semantic_score * (1/10))| ≤ 1/100 := by
  rcases h with h | h <;> subst h <;>
    exact weighted_round2_bound _ _ _ _

/-- A concrete AI scoring payload. -/
def aiW : AiResult :=
  { skills_score := 81, experience_score := 65, education_score := 77, semantic_score := 59 }

/-- C6 witness: both strategies instantiated on concrete inputs. -/
theorem c6_total_is_weighted_sum_witness :
    |(calculate_fallback_score 2025 rScenA jdScenA).total_score -
      ((calculate_fallback_score 2025 rScenA jdScenA).breakdown.skills_score * (4/10) +
        (calculate_fallback_score 2025 rScenA jdScenA).breakdown.experience_score * (3/10) +
        (calculate_fallback_score 2025 rScenA jdScenA).breakdown.education_score * (2/10) +
        (calculate_fallback_score 2025 rScenA jdScenA).breakdown.semantic_score * (1/10))| ≤ 1/100 ∧
    |(calculate_ai_score 2025 aiW rScenA jdScenA).total_score -
      ((calculate_ai_score 2025 aiW rScenA jdScenA).breakdown.skills_score * (4/10) +
        (calculate_ai_score 2025 aiW rScenA jdScenA).breakdown.experience_score * (3/10) +
        (calculate_ai_score 2025 aiW rScenA jdScenA).breakdown.education_score * (2/10) +
        (calculate_ai_score 2025 aiW rScenA jdScenA).breakdown.semantic_score * (1/10))| ≤ 1/100 :=
  ⟨c6_total_is_weighted_sum 2025 aiW rScenA jdScenA _ (Or.inr rfl),
   c6_total_is_weighted_sum 2025 aiW rScenA jdScenA _ (Or.inl rfl)⟩

theorem all_job_nil_iff (a b : List String) :
    (skillSet a ++ skillSet b).dedup = [] ↔ skillSet (a ++ b) = [] := by
  simp [skillSet, List.filter_append, List.map_append, List.dedup_eq_nil,
    List.append_eq_nil]

/-- C7: the heuristic skills axis returns 50 when the job lists no required
and no preferred skills; 0 when the job's normalized skill set is nonempty
but the resume has no skills; and otherwise
`min(100·(0.7·req_ratio + 0.3·pref_ratio), 100)` over case-folded skill sets,
the required ratio defaulting to 1 and the preferred ratio to 1/2 on an empty
denominator set. -/
theorem c7_skills_axis (r : Resume) (jd : JobDescription) :
    (jd.required_skills = [] → jd.preferred_skills = [] →
      calculate_skills_score r jd = 50) ∧
    (skillSet (jd.required_skills ++ jd.preferred_skills) ≠ [] → r.skills = [] →
      calculate_skills_score r jd = 0) ∧
    (skillSet r.skills ≠ [] → skillSet (jd.required_skills ++ jd.preferred_skills) ≠ [] →
      calculate_skills_score r jd =
        min (100 * ((7/10) * (if skillSet jd.required_skills = [] then 1 else
            (interCount (skillSet r.skills) (skillSet jd.required_skills) : ℚ) /
              (skillSet jd.required_skills).length) +
          (3/10) * (if skillSet jd.preferred_skills = [] then 1/2 else
            (interCount (skillSet r.skills) (skillSet jd.preferred_skills) : ℚ) /
              (skillSet jd.preferred_skills).length))) 100) := by
  have hOfJob : skillSet (jd.required_skills ++ jd.preferred_skills) ≠ [] →
      ((skillSet jd.required_skills ++ skillSet jd.preferred_skills).dedup).isEmpty = false := by
    intro hJob
    rw [List.isEmpty_eq_false, Ne, all_job_nil_iff]
    exact hJob
  refine ⟨?_, ?_, ?_⟩
  · intro h1 h2
    simp [calculate_skills_score, h1, h2, skillSet]
  · intro hJob hR
    have hRs : (skillSet r.skills).isEmpty = true := by rw [hR]; rfl
    simp only [calculate_skills_score]
    rw [hOfJob hJob, hRs]
    simp
  · intro hR hJob
    have hRs : (skillSet r.skills).isEmpty = false := List.isEmpty_eq_false.mpr hR
    simp only [calculate_skills_score]
    rw [hOfJob hJob, hRs]
    simp only [Bool.false_eq_true, if_false, Bool.not_false, if_true]
    rcases eq_or_ne (skillSet jd.required_skills) [] with hreq | hreq <;>
      rcases eq_or_ne (skillSet jd.preferred_skills) [] with hpref | hpref
    · exact absurd (by rw [← all_job_nil_iff, hreq, hpref]; rfl) hJob
    · have hp := List.isEmpty_eq_false.mpr hpref
      rw [hreq, hp]
      simp only [List.isEmpty_nil, Bool.not_true, Bool.false_eq_true, if_false,
        Bool.not_false, if_true, if_pos rfl, if_neg hpref]
      congr 1
      ring
    · have hq := List.isEmpty_eq_false.mpr hreq
      rw [hpref, hq]
      simp only [List.isEmpty_nil, Bool.not_true, Bool.false_eq_true, if_false,
        Bool.not_false, if_true, if_pos rfl, if_neg hreq]
      congr 1
      ring
    · have hq := List.isEmpty_eq_false.mpr hreq
      have hp := List.isEmpty_eq_false.mpr hpref
      rw [hq, hp]
      simp only [Bool.not_false, if_true, if_neg hreq, if_neg hpref]
      congr 1
      ring

/-- A resume with an empty skills list. -/
def rNoSkills : Resume := { name := "Zoe", resume_hash := "" }

/-- C7 witness: the three branches instantiated — no job skills ⇒ 50, job
skills but no resume skills ⇒ 0, and Scenario A's inputs ⇒ 185/3. -/
theorem c7_skills_axis_witness :
    calculate_skills_score rScenA jdNoSkills = 50 ∧
    calculate_skills_score rNoSkills jdScenA = 0 ∧
    calculate_skills_score rScenA jdScenA = 185/3 :=
  ⟨(c7_skills_axis rScenA jdNoSkills).1 rfl rfl,
   (c7_skills_axis rNoSkills jdScenA).2.1 (by decide) rfl,
   ((c7_skills_axis rScenA jdScenA).2.2 (by decide) (by decide)).trans (by decide)⟩

/-- The education axis as the claim words it: the same highest-tier-wins scan
but with exactly the keyword lists the claim enumerates — `PhD/doctorate`,
`Master/MBA/MS/MA`, `Bachelor/BS/BA/BSc`, `Associate/diploma/certificate` —
and base 50 when none of those occurs.  (For comparison against
`calculate_education_score`, whose lists also contain `doctoral`, `msc`,
`btech` and `be`.) -/
def educationScoreClaimed (resume : Resume) : ℚ :=
  if resume.education.isEmpty then 30
  else
    let text := educationText resume
    if anyKeywordIn text ["phd", "doctorate"] then 100
    else if anyKeywordIn text ["master", "mba", "ms", "ma"] then 90
    else if anyKeywordIn text ["bachelor", "bs", "ba", "bsc"] then 80
    else if anyKeywordIn text ["associate", "diploma", "certificate"] then 70
    else 50

/-- A resume whose single education entry is a doctoral program: its text
contains none of the claim's tier keywords, yet the code scores it 100 via
the keyword `doctoral`, which the claim's lists omit. -/
def rDoctoral : Resume :=
  { name := "Dana", resume_hash := "",
    education := [{ degree := "Doctoral Studies", institution := "Oak Institute" }] }

/-- An education job-description placeholder. -/
def jdPlain : JobDescription := { description := "" }

/-- C9 counterexample: on `rDoctoral` the code returns 100, while the claim's
enumerated tier lists contain no keyword occurring in the text, so the claim
("base 50.0 when no tier keyword occurs") predicts 50. -/
theorem c9_education_counterexample :
    calculate_education_score rDoctoral jdPlain = 100 ∧
    educationScoreClaimed rDoctoral = 50 ∧
    anyKeywordIn (educationText rDoctoral)
      ["phd", "doctorate", "master", "mba", "ms", "ma", "bachelor", "bs", "ba",
       "bsc", "associate", "diploma", "certificate"] = false := by
  refine ⟨?_, ?_, ?_⟩ <;> decide

/-- C9 (amended): 30 with no education entries; otherwise a highest-tier-wins
keyword scan of the concatenated degree+institution+field text with the
code's tier lists — `phd/doctorate/doctoral` → 100, `master/mba/msc/ma/ms` →
90, `bachelor/bsc/ba/bs/btech/be` → 80, `associate/diploma/certificate` → 70
— and base 50 when no tier keyword occurs. -/
theorem c9_education_axis (r : Resume) (jd : JobDescription) :
    (r.education = [] → calculate_education_score r jd = 30) ∧
    (r.education ≠ [] →
      (anyKeywordIn (educationText r) ["phd", "doctorate", "doctoral"] = true →
        calculate_education_score r jd = 100) ∧
      (anyKeywordIn (educationText r) ["phd", "doctorate", "doctoral"] = false →
        anyKeywordIn (educationText r) ["master", "mba", "msc", "ma", "ms"] = true →
        calculate_education_score r jd = 90) ∧
      (anyKeywordIn (educationText r) ["phd", "doctorate", "doctoral"] = false →
        anyKeywordIn (educationText r) ["master", "mba", "msc", "ma", "ms"] = false →
        anyKeywordIn (educationText r) ["bachelor", "bsc", "ba", "bs", "btech", "be"] = true →
        calculate_education_score r jd = 80) ∧
      (anyKeywordIn (educationText r) ["phd", "doctorate", "doctoral"] = false →
        anyKeywordIn (educationText r) ["master", "mba", "msc", "ma", "ms"] = false →
        anyKeywordIn (educationText r) ["bachelor", "bsc", "ba", "bs", "btech", "be"] = false →
        anyKeywordIn (educationText r) ["associate", "diploma", "certificate"] = true →
        calculate_education_score r jd = 70) ∧
      (anyKeywordIn (educationText r) ["phd", "doctorate", "doctoral"] = false →
        anyKeywordIn (educationText r) ["master", "mba", "msc", "ma", "ms"] = false →
        anyKeywordIn (educationText r) ["bachelor", "bsc", "ba", "bs", "btech", "be"] = false →
        anyKeywordIn (educationText r) ["associate", "diploma", "certificate"] = false →
        calculate_education_score r jd = 50)) := by
  constructor
  · intro h
    simp [calculate_education_score, h]
  · intro hne
    have hE : r.education.isEmpty = false := List.isEmpty_eq_false.mpr hne
    refine ⟨?_, ?_, ?_, ?_, ?_⟩ <;> intros <;>
      simp_all [calculate_education_score, hE]

/-- A high-school-only resume: no tier keyword occurs in its education text. -/
def rHighSchool : Resume :=
  { name := "Hugh", resume_hash := "",
    education := [{ degree := "High School", institution := "Lincoln" }] }

/-- C9 witness: the empty, top-tier and base branches instantiated. -/
theorem c9_education_axis_witness :
    calculate_education_score rNoSkills jdPlain = 30 ∧
    calculate_education_score rDoctoral jdPlain = 100 ∧
    calculate_education_score rHighSchool jdPlain = 50 :=
  ⟨(c9_education_axis rNoSkills jdPlain).1 rfl,
   ((c9_education_axis rDoctoral jdPlain).2 (by decide)).1 (by decide),
   ((((c9_education_axis rHighSchool jdPlain).2 (by decide)).2.2.2.2)
     (by decide) (by decide) (by decide) (by decide))⟩

/-- The invariant of the experience-section scan: every accumulated entry and
the entry under construction carry the `"Unknown"` start-date sentinel. -/
def expScanInv (st : ExpScan) : Prop :=
  (∀ e ∈ st.acc, e.start_date = "Unknown") ∧
  (∀ e, st.current = some e → e.start_date = "Unknown")

set_option maxHeartbeats 1600000 in
theorem scanExpLine_inv (st : ExpScan) (line : String) (h : expScanInv st) :
    expScanInv (scanExpLine st line) := by
  obtain ⟨hacc, hcur⟩ := h
  unfold expScanInv
  rcases hc : st.current with _ | e0
  · simp only [scanExpLine, hc]
    repeat' split
    all_goals refine ⟨fun e he => ?_, fun e he => ?_⟩
    all_goals try simp_all
    all_goals first
      | (subst he; rfl)
      | (cases he; rfl)
      | exact hacc _ (by assumption)
      | (rcases he with hm | hm <;> first | exact hacc _ hm | (subst hm; exact he0))
  · have he0 : e0.start_date = "Unknown" := hcur e0 hc
    simp only [scanExpLine, hc]
    repeat' split
    all_goals refine ⟨fun e he => ?_, fun e he => ?_⟩
    all_goals try simp_all
    all_goals first
      | (subst he; rfl)
      | (cases he; rfl)
      | exact hacc _ (by assumption)
      | (rcases he with hm | hm <;> first | exact hacc _ hm | (subst hm; exact he0))

theorem foldl_scanExpLine_inv (lines : List String) (st : ExpScan) (h : expScanInv st) :
    expScanInv (lines.foldl scanExpLine st) := by
  induction lines generalizing st with
  | nil => exact h
  | cons l ls ih => exact ih _ (scanExpLine_inv st l h)

/-- Every experience entry the fallback extractor produces carries the
`"Unknown"` start-date sentinel. -/
theorem fallbackExperiences_unknown (lines : List String) :
    ∀ e ∈ fallbackExperiences lines, e.start_date = "Unknown" := by
  intro e he
  have hinv : expScanInv (lines.foldl scanExpLine {}) :=
    foldl_scanExpLine_inv lines {} ⟨by simp, by simp⟩
  unfold fallbackExperiences at he
  rcases hc : (lines.foldl scanExpLine {}).current with _ | e0
  · simp only [hc] at he
    exact hinv.1 e he
  · simp only [hc] at he
    split at he
    · exact hinv.1 e he
    · rcases List.mem_append.mp he with hm | hm
      · exact hinv.1 e hm
      · rw [List.mem_singleton.mp hm]
        exact hinv.2 e0 hc

theorem entry_years_none_of_bad_start (currentYear : Int) (e : Experience)
    (h : pyInt ((splitDash e.start_date).headD "") = none) :
    experienceEntryYears currentYear e = none := by
  unfold experienceEntryYears
  split
  · rfl
  · rw [h]

/-- Entries whose start date has no parseable leading year contribute nothing. -/
theorem sum_skip_bad_start (currentYear : Int) (e : Experience) (rest : List Experience)
    (h : pyInt ((splitDash e.start_date).headD "") = none) :
    sumExperienceYears currentYear (e :: rest) = sumExperienceYears currentYear rest := by
  have hn : experienceEntryYears currentYear e = none :=
    entry_years_none_of_bad_start currentYear e h
  simp [sumExperienceYears, hn]

theorem sum_unknown_zero (currentYear : Int) (l : List Experience)
    (h : ∀ e ∈ l, e.start_date = "Unknown") : sumExperienceYears currentYear l = 0 := by
  induction l with
  | nil => rfl
  | cons e es ih =>
    have hs : e.start_date = "Unknown" := h e (List.mem_cons_self e es)
    have hbad : pyInt ((splitDash e.start_date).headD "") = none := by
      rw [hs]; decide
    rw [sum_skip_bad_start currentYear e es hbad]
    exact ih (fun x hx => h x (List.mem_cons_of_mem e hx))

/-- C10: an experience entry whose start date has no parseable leading
integer year (the `"Unknown"` sentinel included) is skipped rather than
raising, and a record produced by fallback extraction (both LLM attempts
failed) always computes 0.0 experience years and scores exactly 0.0 on the
experience axis. -/
theorem c10_unparseable_dates_skipped :
    (∀ (currentYear : Int) (e : Experience) (rest : List Experience),
      pyInt ((splitDash e.start_date).headD "") = none →
      sumExperienceYears currentYear (e :: rest) = sumExperienceYears currentYear rest) ∧
    (∀ (text : String) (now : Nat) (currentYear : Int) (jd : JobDescription),
      calculate_total_experience_years currentYear (parse_resume none none text now) = 0 ∧
      calculate_experience_score currentYear (parse_resume none none text now) jd = 0) := by
  constructor
  · exact sum_skip_bad_start
  · intro text now currentYear jd
    have hexp : ∀ e ∈ (parse_resume none none text now).experiences,
        e.start_date = "Unknown" :=
      fallbackExperiences_unknown (fallbackLines text)
    have hsum : sumExperienceYears currentYear (parse_resume none none text now).experiences = 0 :=
      sum_unknown_zero currentYear _ hexp
    have htotal : calculate_total_experience_years currentYear (parse_resume none none text now) = 0 := by
      unfold calculate_total_experience_years
      rw [hsum]
      simp [round1]
    refine ⟨htotal, ?_⟩
    unfold calculate_experience_score
    split
    · rfl
    · simp [htotal]

/-- An experience entry with the `"Unknown"` sentinel. -/
def eUnknown : Experience := { title := "Engineer", company := "Acme", start_date := "Unknown" }

/-- C10 witness: the skip rule applied to a concrete `"Unknown"` entry, and
the zero-years/zero-score conclusion on a concrete fallback parse. -/
theorem c10_unparseable_dates_skipped_witness :
    sumExperienceYears 2025 [eUnknown] = sumExperienceYears 2025 [] ∧
    calculate_total_experience_years 2025 (parse_resume none none textW 0) = 0 ∧
    calculate_experience_score 2025 (parse_resume none none textW 0) jdScenA = 0 :=
  ⟨c10_unparseable_dates_skipped.1 2025 eUnknown [] (by decide),
   (c10_unparseable_dates_skipped.2 textW 0 2025 jdScenA).1,
   (c10_unparseable_dates_skipped.2 textW 0 2025 jdScenA).2⟩

/-! ## `upload_resume` (`routers/upload.py`)

The handler from the point where the document-text provider has produced
`text_content`.  File-type validation and GridFS storage precede this point
and are out-of-scope collaborators; the record store is modelled as the list
of stored records, each under its Mongo id (a `Nat` here). -/

/-- A record as stored in `db.resumes`, with its `_id`. -/
structure StoredResume where
  oid : Nat
  resume : Resume
deriving DecidableEq

/-- The observable outcome of an upload: the response message and resume id,
the record store after the call, and whether `gemini_service.parse_resume`
was invoked. -/
structure UploadOutcome where
  message : String
  resume_id : Nat
  db : List StoredResume
  extraction_invoked : Bool
deriving DecidableEq

/-- `upload_resume`: hash the extracted text, look the digest up in the
store; on a hit return the existing record's id without inserting and
without invoking extraction; otherwise invoke `parse_resume` and insert the
new record under the fresh id. -/
def upload_resume (db : List StoredResume) (text_content : String)
    (attempt1 attempt2 : Option ResumeContent) (now freshId : Nat) : UploadOutcome :=
  let text_hash := sha256hex text_content
  match db.find? (fun s => s.resume.resume_hash == text_hash) with
  | some existing =>
    { message := "Resume already exists. Returning existing data."
      resume_id := existing.oid
      db := db
      extraction_invoked := false }
  | none =>
    let resume := parse_resume attempt1 attempt2 text_content now
    { message := "Resume uploaded and parsed successfully"
      resume_id := freshId
      db := db ++ [{ oid := freshId, resume := resume }]
      extraction_invoked := true }

/-- C5: when a stored record already carries the digest of the uploaded text,
the handler returns that record's id, leaves the store unchanged and does not
invoke extraction; when none does, it invokes extraction and inserts exactly
the parsed record; extraction is invoked exactly when no record with the
digest exists (hash-then-maybe-extract). -/
theorem c5_upload_dedup (db : List StoredResume) (text_content : String)
    (attempt1 attempt2 : Option ResumeContent) (now freshId : Nat) :
    (∀ s, db.find? (fun st => st.resume.resume_hash == sha256hex text_content) = some s →
      (upload_resume db text_content attempt1 attempt2 now freshId).resume_id = s.oid ∧
      (upload_resume db text_content attempt1 attempt2 now freshId).db = db ∧
      (upload_resume db text_content attempt1 attempt2 now freshId).extraction_invoked = false) ∧
    (db.find? (fun st => st.resume.resume_hash == sha256hex text_content) = none →
      (upload_resume db text_content attempt1 attempt2 now freshId).extraction_invoked = true ∧
      (upload_resume db text_content attempt1 attempt2 now freshId).db =
        db ++ [{ oid := freshId, resume := parse_resume attempt1 attempt2 text_content now }] ∧
      (upload_resume db text_content attempt1 attempt2 now freshId).resume_id = freshId) ∧
    ((upload_resume db text_content attempt1 attempt2 now freshId).extraction_invoked = true ↔
      db.find? (fun st => st.resume.resume_hash == sha256hex text_content) = none) := by
  refine ⟨?_, ?_, ?_⟩
  · intro s hs
    simp [upload_resume, hs]
  · intro hn
    simp [upload_resume, hn]
  · rcases hf : db.find? (fun st => st.resume.resume_hash == sha256hex text_content) with _ | s <;>
      simp [upload_resume, hf]

/-- A store holding the record parsed from `textW` under id 5. -/
def storedW : StoredResume := { oid := 5, resume := parse_resume none none textW 0 }

/-- C5 witness: a duplicate upload against `[storedW]` returns id 5 with no
insert and no extraction; the same upload against the empty store invokes
extraction and inserts the record. -/
theorem c5_upload_dedup_witness :
    (upload_resume [storedW] textW none none 0 9).resume_id = 5 ∧
    (upload_resume [storedW] textW none none 0 9).db = [storedW] ∧
    (upload_resume [storedW] textW none none 0 9).extraction_invoked = false ∧
    (upload_resume [] textW none none 0 9).extraction_invoked = true ∧
    (upload_resume [] textW none none 0 9).db =
      [{ oid := 9, resume := parse_resume none none textW 0 }] := by
  have hfind : List.find? (fun st => st.resume.resume_hash == sha256hex textW) [storedW] =
      some storedW := by
    have hbeq : (storedW.resume.resume_hash == sha256hex textW) = true := by
      have h : storedW.resume.resume_hash = sha256hex textW := rfl
      simp [h]
    simp [List.find?, hbeq]
  have h1 := (c5_upload_dedup [storedW] textW none none 0 9).1 storedW hfind
  have h2 := (c5_upload_dedup [] textW none none 0 9).2.1 rfl
  exact ⟨h1.1, h1.2.1, h1.2.2, h2.1, by simpa using h2.2.1⟩
